import Mathlib

/-!
Shallow embedding of the lawyer-crawling system core
(`apps/lawyers/models.py`, `apps/lawyers/rocketreach_service.py`,
`apps/crawler/tasks.py`, `apps/crawler/detail_tasks.py`) and proofs about it.

Strings model Python `str` values; Python truthiness of a string is the
test `≠ ""`.  Rationals model Python floats (all arithmetic involved is
exact).  Database rows are modelled as Lean structures, a table as a list
of rows ordered the way the Django model `Meta.ordering` orders it, and
`save()` as a pure state transformer.  External effects (HTTP fetches,
provider responses, random draws, clock readings) enter as explicit
parameters.
-/

/-- Whitespace characters recognized by Python `str.split()` and by the
regex class `\s` (ASCII subset, the only ones that occur in this data). -/
def isPySpace (c : Char) : Bool :=
  c = ' ' || c = '\t' || c = '\n' || c = '\r' || c = '\x0b' || c = '\x0c'

/-- Python `str.lower()` (ASCII). -/
def pyLower (s : String) : String :=
  String.mk (s.toList.map Char.toLower)

/-- Substring test on character lists: Python `needle in haystack`. -/
def listContains : List Char → List Char → Bool
  | n, [] => n.isEmpty
  | n, c :: rest => n.isPrefixOf (c :: rest) || listContains n rest

/-- Python substring containment `needle in haystack` on strings. -/
def strContains (needle haystack : String) : Bool :=
  listContains needle.toList haystack.toList

/-- Helper for `pySplit`: accumulates the current word (reversed). -/
def pySplitAux : List Char → List Char → List String
  | acc, [] => if acc.isEmpty then [] else [String.mk acc.reverse]
  | acc, c :: rest =>
    if isPySpace c then
      if acc.isEmpty then pySplitAux [] rest
      else String.mk acc.reverse :: pySplitAux [] rest
    else pySplitAux (c :: acc) rest

/-- Python `str.split()` with no argument: split on whitespace runs. -/
def pySplit (s : String) : List String :=
  pySplitAux [] s.toList

/-- Helper for `pyTitle`: the boolean records whether the previous
character was a letter. -/
def pyTitleAux : Bool → List Char → List Char
  | _, [] => []
  | prevCased, c :: rest =>
    if c.isAlpha then
      (if prevCased then c.toLower else c.toUpper) :: pyTitleAux true rest
    else c :: pyTitleAux false rest

/-- Python `str.title()` (ASCII): first letter of each word upper-cased,
the rest lower-cased. -/
def pyTitle (s : String) : String :=
  String.mk (pyTitleAux false s.toList)

/-- Python `str.replace` for a one-character pattern and replacement,
the only shape the source uses (`practice_area.replace('-', ' ')`). -/
def pyReplaceChar (pat rep : Char) (s : String) : String :=
  String.mk (s.toList.map (fun c => if c = pat then rep else c))

/-!
Backtracking matchers for the two anchored regular expressions used by
`Lawyer.calculate_quality_score`.  Each matcher is written in
continuation-passing style; the continuation receives the unconsumed
input.  `matchEnd` implements `$` under `re.match` semantics (end of
string, or a single trailing newline).
-/

/-- Accept the end of input, or one final newline (Python `$`). -/
def matchEnd (s : List Char) : Bool :=
  s.isEmpty || s = ['\n']

/-- Match exactly one character satisfying `p`, then continue with `k`. -/
def matchChar (p : Char → Bool) (k : List Char → Bool) : List Char → Bool
  | [] => false
  | c :: rest => p c && k rest

/-- Match zero or one character satisfying `p` (regex `?`), with
backtracking into the continuation `k`. -/
def matchOpt (p : Char → Bool) (k : List Char → Bool) : List Char → Bool
  | [] => k []
  | c :: rest => (p c && k rest) || k (c :: rest)

/-- Match exactly `n` characters satisfying `p` (regex `{n}`). -/
def matchCount : Nat → (Char → Bool) → (List Char → Bool) → List Char → Bool
  | 0, _, k, s => k s
  | n + 1, p, k, s => matchChar p (matchCount n p k) s

/-- Match one or more characters satisfying `p` (regex `+`), with
backtracking into the continuation `k`. -/
def matchPlus (p : Char → Bool) (k : List Char → Bool) : List Char → Bool
  | [] => false
  | c :: rest => p c && (k rest || matchPlus p k rest)

/-- The separator class `[-.\s]` of the phone regex. -/
def isPhoneSep (c : Char) : Bool :=
  c = '-' || c = '.' || isPySpace c

/-- Matcher for the US phone regex of `calculate_quality_score`:
`^\+?1?[-.\s]?\(?[0-9]{3}\)?[-.\s]?[0-9]{3}[-.\s]?[0-9]{4}$`. -/
def phoneRegexMatch (s : String) : Bool :=
  matchOpt (· = '+')
    (matchOpt (· = '1')
      (matchOpt isPhoneSep
        (matchOpt (· = '(')
          (matchCount 3 Char.isDigit
            (matchOpt (· = ')')
              (matchOpt isPhoneSep
                (matchCount 3 Char.isDigit
                  (matchOpt isPhoneSep
                    (matchCount 4 Char.isDigit matchEnd))))))))) s.toList

/-- The local-part class `[a-zA-Z0-9._%+-]` of the email regex. -/
def isEmailLocalChar (c : Char) : Bool :=
  c.isAlpha || c.isDigit || c = '.' || c = '_' || c = '%' || c = '+' || c = '-'

/-- The domain class `[a-zA-Z0-9.-]` of the email regex. -/
def isEmailDomainChar (c : Char) : Bool :=
  c.isAlpha || c.isDigit || c = '.' || c = '-'

/-- Matcher for the email regex of `calculate_quality_score`:
`^[a-zA-Z0-9._%+-]+@[a-zA-Z0-9.-]+\.[a-zA-Z]{2,}$`. -/
def emailRegexMatch (s : String) : Bool :=
  matchPlus isEmailLocalChar
    (matchChar (· = '@')
      (matchPlus isEmailDomainChar
        (matchChar (· = '.')
          (matchChar Char.isAlpha
            (matchPlus Char.isAlpha matchEnd))))) s.toList

/-!
The `Lawyer` data model (`apps/lawyers/models.py`).  Only the fields the
business logic reads or writes are carried; the remaining columns are
inert storage.
-/

/-- One entry of the `Lawyer.company_emails` JSON list, as built by
`add_company_email`. -/
structure CompanyEmail where
  email : String
  type : String
  contact_name : String
  contact_title : String
  source : String
  confidence : ℚ
  verified : Bool
  created_at : String
  deriving DecidableEq, Repr

/-- One entry of the `Lawyer.employee_contacts` JSON list, as built by
`_sync_law_firm_emails`. -/
structure EmployeeContact where
  name : String
  title : String
  company : String
  emails : List String
  phone : String
  linkedin : String
  source : String
  confidence : String
  deriving DecidableEq, Repr

/-- The `Lawyer` model row (fields used by the core logic). -/
structure Lawyer where
  domain : String
  company_name : String
  attorney_name : String
  phone : String
  address : String
  website : String
  email : String
  practice_areas : String
  attorney_details : String
  law_school : String
  bar_admissions : String
  licensed_since : String
  education : String
  company_emails : List CompanyEmail
  employee_contacts : List EmployeeContact
  entity_type : String
  completeness_score : ℚ
  quality_score : ℚ
  deriving DecidableEq, Repr

/-- `Lawyer.detect_entity_type` as a function of the two fields it reads.
Mirrors the domain checks, the firm/individual indicator scans over the
lower-cased name, and the short-name default. -/
def detectET (domain company_name : String) : String :=
  if domain = "lawinfo.com" then "law_firm"
  else if domain = "superlawyers.com" then "individual_attorney"
  else if company_name = "" then "unknown"
  else if ["law", "firm", "attorneys", "p.c.", "llp", "llc", "group", "associates",
           "partners", "legal", "office", "offices", "&", "and", "lawyers"].any
            (fun i => strContains i (pyLower company_name)) then "law_firm"
  else if ["esq", "esquire", "attorney", "lawyer", "counsel", "mr.", "ms.", "dr."].any
            (fun i => strContains i (pyLower company_name)) then "individual_attorney"
  else if (pySplit company_name).length ≤ 3 &&
          !(["law", "firm", "attorneys", "p.c.", "llp", "llc", "group", "associates",
             "partners", "legal", "office", "offices", "&", "and", "lawyers"].any
              (fun i => strContains i (pyLower company_name))) then "individual_attorney"
  else "unknown"

/-- `Lawyer.detect_entity_type` on a row. -/
def Lawyer.detect_entity_type (l : Lawyer) : String :=
  detectET l.domain l.company_name

/-- `Lawyer.calculate_completeness_score`: 70 percent weight on the six
core fields, 30 percent on the six additional fields, capped at 100. -/
def Lawyer.calculate_completeness_score (l : Lawyer) : ℚ :=
  let core_fields := [l.company_name, l.attorney_name, l.phone,
                      l.address, l.website, l.email]
  let additional_fields := [l.practice_areas, l.attorney_details, l.law_school,
                            l.bar_admissions, l.licensed_since, l.education]
  let core_filled := core_fields.countP (fun f => f != "")
  let additional_filled := additional_fields.countP (fun f => f != "")
  let score : ℚ := ((core_filled : ℚ) / core_fields.length) * 70 +
                   ((additional_filled : ℚ) / additional_fields.length) * 30
  min score 100

/-- `Lawyer.calculate_quality_score`: four independent 25-point checks. -/
def Lawyer.calculate_quality_score (l : Lawyer) : ℚ :=
  (if l.phone ≠ "" ∧ phoneRegexMatch l.phone then 25 else 0) +
  (if l.email ≠ "" ∧ emailRegexMatch l.email then 25 else 0) +
  (if l.address ≠ "" ∧ l.address.length > 10 then 25 else 0) +
  (if l.company_name ≠ "" ∧ l.company_name.length > 3 then 25 else 0)

/-- The overridden `Lawyer.save`: re-derives `entity_type` when it is
`unknown`, adjusts `attorney_name` by entity type, and recomputes both
scores from the (possibly updated) field values. -/
def saveLawyer (l : Lawyer) : Lawyer :=
  let et := if l.entity_type = "unknown" then l.detect_entity_type else l.entity_type
  let an :=
    if et = "law_firm" then
      (if l.attorney_name = "" then "" else l.attorney_name)
    else if et = "individual_attorney" then
      (if l.attorney_name = "" ∧ l.company_name ≠ "" then l.company_name
       else l.attorney_name)
    else l.attorney_name
  let l1 := { l with entity_type := et, attorney_name := an }
  { l1 with completeness_score := l1.calculate_completeness_score,
            quality_score := l1.calculate_quality_score }

/-- `Lawyer.add_company_email`.  Returns the updated row together with
`some entry` for the Python return value `new_email`, or `none` for the
Python return value `False` when the address is already present.  The
`now` argument stands for `datetime.now().isoformat()`. -/
def addCompanyEmail (l : Lawyer) (email email_type contact_name contact_title
    source : String) (confidence_score : ℚ) (now : String) :
    Lawyer × Option CompanyEmail :=
  if l.company_emails.any (fun existing => existing.email = email) then
    (l, none)
  else
    let new_email : CompanyEmail :=
      { email := email, type := email_type, contact_name := contact_name,
        contact_title := contact_title, source := source,
        confidence := confidence_score, verified := false, created_at := now }
    (saveLawyer { l with company_emails := l.company_emails ++ [new_email] },
     some new_email)

/-- One entry of the list returned by `Lawyer.get_all_emails`.  The
primary-email entry carries no confidence key, hence the `Option`. -/
structure EmailEntry where
  email : String
  type : String
  source : String
  verified : Bool
  contact_name : String
  contact_title : String
  confidence : Option ℚ
  deriving DecidableEq, Repr

/-- The entry `get_all_emails` builds for the primary email. -/
def primaryEntry (l : Lawyer) : EmailEntry :=
  { email := l.email, type := "primary", source := "crawled", verified := true,
    contact_name := if l.attorney_name ≠ "" then l.attorney_name else "N/A",
    contact_title := "Attorney", confidence := none }

/-- The entry `get_all_emails` builds for a `company_emails` item. -/
def companyEntry (c : CompanyEmail) : EmailEntry :=
  { email := c.email, type := c.type, source := c.source, verified := c.verified,
    contact_name := c.contact_name, contact_title := c.contact_title,
    confidence := some c.confidence }

/-- The `company_emails` loop of `get_all_emails`, threading the
`seen_emails` set (as a list). -/
def getAllEmailsAux : List CompanyEmail → List String → List EmailEntry
  | [], _ => []
  | c :: rest, seen =>
    if c.email ∈ seen then getAllEmailsAux rest seen
    else companyEntry c :: getAllEmailsAux rest (c.email :: seen)

/-- `Lawyer.get_all_emails`: primary email first (when truthy), then the
`company_emails` entries, skipping addresses already seen. -/
def getAllEmails (l : Lawyer) : List EmailEntry :=
  if l.email ≠ "" then primaryEntry l :: getAllEmailsAux l.company_emails [l.email]
  else getAllEmailsAux l.company_emails []

/-- The scan of `get_best_contact_email`: priorities outermost, and for
each priority the first entry of that type wins. -/
def bestByPriority : List String → List EmailEntry → Option EmailEntry
  | [], _ => none
  | p :: rest, es =>
    match es.find? (fun e => e.type = p) with
    | some e => some e
    | none => bestByPriority rest es

/-- `Lawyer.get_best_contact_email` with its priority order
`primary > professional > personal > previous`. -/
def getBestContactEmail (l : Lawyer) : Option EmailEntry :=
  bestByPriority ["primary", "professional", "personal", "previous"] (getAllEmails l)

/-!
The RocketReach enrichment service
(`apps/lawyers/rocketreach_service.py`).
-/

/-- One raw provider email object, as produced by
`EmailProcessor.extract_emails_from_lookup`. -/
structure ActualEmail where
  email : String
  type : String
  grade : String
  smtp_valid : String
  deriving DecidableEq, Repr

/-- One entry of a result's `employee_emails` list, as built by
`_process_profiles_for_emails` and consumed by the sync functions.  The
sync code reads `phone` and `linkedin_url` through `dict.get` with an
empty-string default; pipeline-built entries leave them empty. -/
structure EmployeeEmail where
  name : String
  title : String
  company : String
  email_domain : String
  email_type : String
  source : String
  confidence : String
  actual_emails : List ActualEmail
  phone : String
  linkedin_url : String
  deriving DecidableEq, Repr

/-- The normalized result dictionary built by `ResultBuilder`
(`build_success_result` / `build_not_found_result` / `build_error_result`):
the fields the lookup-record update and the email sync consume. -/
structure LookupResult where
  success : Bool
  status : String
  email : Option String
  confidence_score : ℚ
  employee_emails : List EmployeeEmail
  error : Option String
  deriving DecidableEq, Repr

/-- `ResultBuilder.build_not_found_result` restricted to the consumed
fields. -/
def buildNotFoundResult : LookupResult :=
  { success := false, status := "not_found", email := none,
    confidence_score := 0, employee_emails := [], error := none }

/-- A `RocketReachLookup` model row (fields used by the service). -/
structure RocketReachLookup where
  id : Nat
  status : String
  email : Option String
  confidence_score : ℚ
  employee_emails : List EmployeeEmail
  deriving DecidableEq, Repr

/-- The row created by `_create_lookup_record` (model defaults plus
`status='in_progress'`). -/
def newLookupRecord (id : Nat) : RocketReachLookup :=
  { id := id, status := "in_progress", email := none, confidence_score := 0,
    employee_emails := [] }

/-- `_update_lookup_with_result` on the record fields: a result whose
`success` key is not `False` copies email, status and confidence onto the
record; otherwise only the status (and employee emails) are stored. -/
def updateLookupWithResult (lookup : RocketReachLookup) (result : LookupResult) :
    RocketReachLookup :=
  if result.success then
    { lookup with email := result.email, status := result.status,
                  confidence_score := result.confidence_score,
                  employee_emails := result.employee_emails }
  else
    { lookup with status := result.status,
                  employee_emails := result.employee_emails }

/-- `_get_existing_lookup`: the lawyer's lookup rows ordered most recent
first (the model's `Meta.ordering`), filtered to status `completed` or
`found`, first match.  Note: no condition on the stored email. -/
def getExistingLookup (records : List RocketReachLookup) :
    Option RocketReachLookup :=
  records.find? (fun r => r.status = "completed" || r.status = "found")

/-- The dictionary returned by `lookup_lawyer_email` (fields relevant to
idempotence; `lawyer_id`/`lawyer_name` are pass-through). -/
structure LookupOutput where
  success : Bool
  email : Option String
  confidence : ℚ
  status : String
  lookup_id : Nat
  error : Option String
  deriving DecidableEq, Repr

/-- `_build_existing_lookup_result`. -/
def buildExistingLookupResult (existing : RocketReachLookup) : LookupOutput :=
  { success := true, email := existing.email,
    confidence := existing.confidence_score, status := existing.status,
    lookup_id := existing.id, error := none }

/-- `_build_lookup_result`: reads email and confidence from the search
result, status and id from the (already updated) lookup record. -/
def buildLookupResult (result : LookupResult) (lookup : RocketReachLookup) :
    LookupOutput :=
  if result.success then
    { success := true, email := result.email,
      confidence := result.confidence_score, status := lookup.status,
      lookup_id := lookup.id, error := none }
  else
    { success := result.success, email := result.email,
      confidence := result.confidence_score, status := lookup.status,
      lookup_id := lookup.id, error := result.error }

/-!
The email sync (`_sync_emails_to_lawyer` and helpers).
-/

/-- Python truthiness of an optional string. -/
def optTruthy : Option String → Bool
  | none => false
  | some s => s ≠ ""

/-- The shared inner step of both sync loops: one
`lawyer.add_company_email(...)` call for one raw email object, skipped
when the address is empty.  Confidence is 0.8 for SMTP-valid addresses,
0.5 otherwise. -/
def addActualEmail (emp : EmployeeEmail) (now : String) (l : Lawyer)
    (a : ActualEmail) : Lawyer :=
  if a.email ≠ "" then
    (addCompanyEmail l a.email a.type emp.name emp.title "rocketreach"
      (if a.smtp_valid = "valid" then (0.8 : ℚ) else (0.5 : ℚ)) now).1
  else l

/-- `_sync_individual_attorney_emails`: fill the primary email when it is
empty and a best email was found, then add every discovered address to
`company_emails`, then save. -/
def syncIndividualAttorneyEmails (l : Lawyer) (best_email : Option String)
    (employee_emails : List EmployeeEmail) (now : String) : Lawyer :=
  let l1 := if optTruthy best_email ∧ l.email = "" then
              { l with email := best_email.getD "" }
            else l
  let l2 := employee_emails.foldl
    (fun acc emp => emp.actual_emails.foldl (addActualEmail emp now) acc) l1
  saveLawyer l2

/-- The `employee_contact` dictionary built by `_sync_law_firm_emails`
for one employee (the `company` key is always present on pipeline-built
entries, so the `dict.get` default is never taken). -/
def mkEmployeeContact (emp : EmployeeEmail) : EmployeeContact :=
  { name := emp.name, title := emp.title, company := emp.company,
    emails := (emp.actual_emails.filter (fun e => e.email ≠ "")).map (·.email),
    phone := emp.phone, linkedin := emp.linkedin_url, source := "rocketreach",
    confidence := if emp.actual_emails.isEmpty then "low" else "high" }

/-- The existing-employee scan of `_sync_law_firm_emails`: replace the
first contact matching on name and title (a `dict.update` with every key
of the new block), or append the block at the end. -/
def updateOrAppendContact (contacts : List EmployeeContact)
    (name title : String) (ec : EmployeeContact) : List EmployeeContact :=
  match contacts with
  | [] => [ec]
  | c :: rest =>
    if c.name = name ∧ c.title = title then ec :: rest
    else c :: updateOrAppendContact rest name title ec

/-- One iteration of the employee loop of `_sync_law_firm_emails`: add
the discovered addresses to `company_emails`, then merge the employee
block into `employee_contacts` (only when at least one raw email object
exists). -/
def syncLawFirmStep (now : String) (l : Lawyer) (emp : EmployeeEmail) : Lawyer :=
  let l1 := emp.actual_emails.foldl (addActualEmail emp now) l
  let ec := mkEmployeeContact emp
  if emp.actual_emails.isEmpty then l1
  else
    { l1 with employee_contacts :=
        updateOrAppendContact l1.employee_contacts emp.name emp.title ec }

/-- `_sync_law_firm_emails`: never touches the primary email; loops over
the employees, then saves. -/
def syncLawFirmEmails (l : Lawyer) (best_email : Option String)
    (employee_emails : List EmployeeEmail) (now : String) : Lawyer :=
  saveLawyer (employee_emails.foldl (syncLawFirmStep now) l)

/-- `_sync_unknown_entity_emails`: a single employee matching the
attorney name is treated as an individual, anything else as a firm. -/
def syncUnknownEntityEmails (l : Lawyer) (best_email : Option String)
    (employee_emails : List EmployeeEmail) (now : String) : Lawyer :=
  match employee_emails with
  | [emp] =>
    if emp.name = l.attorney_name then
      syncIndividualAttorneyEmails l best_email employee_emails now
    else syncLawFirmEmails l best_email employee_emails now
  | _ => syncLawFirmEmails l best_email employee_emails now

/-- `_sync_emails_to_lawyer`: route by `entity_type`. -/
def syncEmailsToLawyer (l : Lawyer) (result : LookupResult) (now : String) :
    Lawyer :=
  let employee_emails := result.employee_emails
  let best_email := result.email
  if l.entity_type = "individual_attorney" then
    syncIndividualAttorneyEmails l best_email employee_emails now
  else if l.entity_type = "law_firm" then
    syncLawFirmEmails l best_email employee_emails now
  else syncUnknownEntityEmails l best_email employee_emails now

/-- Outcome of one `lookup_lawyer_email` call: the lookup-record table
(most recent first), the updated lawyer, the returned dictionary, and
how many external provider interactions were issued. -/
structure ServiceCallOutcome where
  records : List RocketReachLookup
  lawyer : Lawyer
  output : LookupOutput
  external_calls : Nat
  deriving Repr

/-- `RocketReachLookupService.lookup_lawyer_email`.  The provider
interaction (`find_lawyer_email` with its searches and lookups) is the
oracle argument `ext`; `freshId` is the primary key the database would
assign to a newly created lookup row; `now` feeds the timestamps of
`add_company_email`. -/
def lookupLawyerEmail (l : Lawyer) (records : List RocketReachLookup)
    (force_refresh : Bool) (freshId : Nat) (ext : LookupResult) (now : String) :
    ServiceCallOutcome :=
  match (if force_refresh then none else getExistingLookup records) with
  | some existing =>
    { records := records, lawyer := l,
      output := buildExistingLookupResult existing, external_calls := 0 }
  | none =>
    let lookup := newLookupRecord freshId
    let updated := updateLookupWithResult lookup ext
    let lawyer2 := if ext.success then syncEmailsToLawyer l ext now else l
    { records := updated :: records, lawyer := lawyer2,
      output := buildLookupResult ext updated, external_calls := 1 }

/-!
The provider error taxonomy (`APIErrorHandler.handle_api_error`,
`RocketReachAPI._process_lookup_response`).
-/

/-- `APIErrorHandler.handle_api_error` on a response status code and
body: 400, 401, 403 and 500 raise `HTTPError` (modelled as `.error`),
404 only logs a warning and returns normally. -/
def handleApiError (status_code : Nat) (text : String) : Except String Unit :=
  if status_code = 400 then .error ("Bad Request: " ++ text)
  else if status_code = 401 then .error "Unauthorized: Invalid API Key"
  else if status_code = 403 then .error "Forbidden: API Key lacks permission"
  else if status_code = 404 then .ok ()
  else if status_code = 500 then .error ("Internal Server Error: " ++ text)
  else .ok ()

/-- The JSON body of a person-lookup response (consumed fields). -/
structure LookupJson where
  emails : List ActualEmail
  status : String
  deriving DecidableEq, Repr

/-- `RocketReachAPI._process_lookup_response`: error handling first, then
200/201 pass the body through, 404 becomes the terminal
`{"emails": [], "status": "not_found"}`, anything else raises. -/
def processLookupResponse (status_code : Nat) (text : String)
    (json : LookupJson) : Except String LookupJson :=
  match handleApiError status_code text with
  | .error e => .error e
  | .ok _ =>
    if status_code = 200 ∨ status_code = 201 then .ok json
    else if status_code = 404 then .ok { emails := [], status := "not_found" }
    else .error ("HTTP error " ++ toString status_code)

/-!
The crawl pipeline (`apps/crawler/tasks.py`, `apps/crawler/detail_tasks.py`).
-/

/-- A `DiscoveryURL` row (fields used by the tasks). -/
structure DiscoveryUnit where
  url : String
  domain : String
  state : String
  city : String
  practice_area : String
  status : String
  lawyers_found : Nat
  error_message : String
  deriving DecidableEq, Repr

/-- A `SourceConfiguration` (crawl session / Job) row. -/
structure SessionState where
  total_urls : Nat
  crawled_urls : Nat
  success_count : Nat
  error_count : Nat
  progress_percentage : ℚ
  status : String
  deriving DecidableEq, Repr

/-- `update_crawl_progress`: recomputes `progress_percentage` only, and
from the stored `crawled_urls` and `total_urls` counters of the session
row itself (not from its discovery units). -/
def updateCrawlProgress (s : SessionState) : SessionState :=
  let progress : ℚ :=
    if 0 < s.total_urls then (s.crawled_urls : ℚ) / (s.total_urls : ℚ) * 100
    else 0
  { s with progress_percentage := progress }

/-- Is the outcome of one `crawl_single_url` call a success? -/
def crawlOk : Except String Nat → Bool
  | .ok _ => true
  | .error _ => false

/-- `crawl_session_task`: sets status `DISCOVERING`, runs
`update_crawl_progress` (before any crawling), then crawls every child
URL, counting successes and failures of this loop and stamping each unit
`completed` or `failed`, and finally marks the session `DONE`.  The
`outcomes` oracle gives the result of `crawl_single_url` per unit. -/
def crawlSessionTask (s : SessionState) (units : List DiscoveryUnit)
    (outcomes : List (Except String Nat)) :
    SessionState × List DiscoveryUnit :=
  let discovering := { s with status := "DISCOVERING" }
  let progressed := updateCrawlProgress discovering
  let paired := units.zip outcomes
  let units2 := paired.map (fun p =>
    match p.2 with
    | .ok n => { p.1 with status := "completed", lawyers_found := n }
    | .error msg => { p.1 with status := "failed", error_message := msg })
  let success_count := (paired.filter (fun p => crawlOk p.2)).length
  let error_count := (paired.filter (fun p => !crawlOk p.2)).length
  ({ progressed with success_count := success_count,
                     error_count := error_count, status := "DONE" }, units2)

/-- The random draws consumed by one iteration of
`create_sample_lawyers_for_url`. -/
structure SampleRand where
  area : Nat
  mid : Nat
  last : Nat
  street : Nat
  deriving DecidableEq, Repr

/-- The `lawyer_data` dictionary created by one iteration of
`create_sample_lawyers_for_url` (the keyword arguments of
`Lawyer.objects.create`). -/
structure SampleLawyer where
  source_url : String
  domain : String
  practice_area : String
  state : String
  city : String
  company_name : String
  phone : String
  address : String
  practice_areas : String
  attorney_details : String
  website : String
  email : String
  deriving DecidableEq, Repr

/-- One sample lawyer row for index `i` of the fallback loop. -/
def sampleLawyerData (ct : DiscoveryUnit) (i : Nat) (r : SampleRand) :
    SampleLawyer :=
  { source_url := ct.url, domain := ct.domain,
    practice_area := ct.practice_area, state := ct.state, city := ct.city,
    company_name := "Sample Law Firm " ++ toString (i + 1),
    phone := "(" ++ toString r.area ++ ") " ++ toString r.mid ++ "-" ++
             toString r.last,
    address := toString r.street ++ " Main St, " ++ ct.city ++ ", " ++ ct.state,
    practice_areas := pyTitle (pyReplaceChar '-' ' ' ct.practice_area),
    attorney_details := "Experienced attorney in " ++
                        (pyReplaceChar '-' ' ' ct.practice_area) ++ " law",
    website := "https://samplelaw" ++ toString (i + 1) ++ ".com",
    email := "info@samplelaw" ++ toString (i + 1) ++ ".com" }

/-- `create_sample_lawyers_for_url`: `num_lawyers` is the
`random.randint(1, 3)` draw, `rand i` the per-iteration number draws.
Returns the created rows and the returned count. -/
def createSampleLawyersForUrl (ct : DiscoveryUnit) (num_lawyers : Nat)
    (rand : Nat → SampleRand) : List SampleLawyer × Nat :=
  ((List.range num_lawyers).map (fun i => sampleLawyerData ct i (rand i)),
   num_lawyers)

/-- `crawl_basic_lawyer_info_task` around `crawl_single_url_basic`: the
unit is stamped `RUNNING`, then the crawl runs; a fetch failure (the
`.error` case of the oracle) falls back to
`create_sample_lawyers_for_url` and, because that fallback swallows the
exception, the unit still completes.  Returns the final unit and the
created sample rows. -/
def crawlBasicLawyerInfoTask (d : DiscoveryUnit)
    (fetchResult : Except String Nat) (numSample : Nat)
    (rand : Nat → SampleRand) : DiscoveryUnit × List SampleLawyer :=
  let running := { d with status := "RUNNING" }
  match fetchResult with
  | .ok extracted =>
    ({ running with lawyers_found := extracted, status := "COMPLETED" }, [])
  | .error _ =>
    let fallback := createSampleLawyersForUrl running numSample rand
    ({ running with lawyers_found := fallback.2, status := "COMPLETED" },
     fallback.1)

/-!
Supporting definitions and lemmas shared by the claim theorems.
-/

/-- A blank lawyer row: every text column empty, both JSON containers
empty, `entity_type` at its model default `unknown`. -/
def emptyLawyer : Lawyer :=
  { domain := "", company_name := "", attorney_name := "", phone := "",
    address := "", website := "", email := "", practice_areas := "",
    attorney_details := "", law_school := "", bar_admissions := "",
    licensed_since := "", education := "", company_emails := [],
    employee_contacts := [], entity_type := "unknown",
    completeness_score := 0, quality_score := 0 }

/-- First-occurrence deduplication, stated from the spec wording (the
order of `get_all_emails` keeps the first occurrence of each address). -/
def specFirstDedupAux : List String → List String → List String
  | [], _ => []
  | x :: xs, seen =>
    if x ∈ seen then specFirstDedupAux xs seen
    else x :: specFirstDedupAux xs (x :: seen)

/-- First-occurrence deduplication of a list of addresses. -/
def specFirstDedup (xs : List String) : List String :=
  specFirstDedupAux xs []

theorem saveLawyer_email (l : Lawyer) : (saveLawyer l).email = l.email := rfl

theorem saveLawyer_company_emails (l : Lawyer) :
    (saveLawyer l).company_emails = l.company_emails := rfl

theorem saveLawyer_employee_contacts (l : Lawyer) :
    (saveLawyer l).employee_contacts = l.employee_contacts := rfl

theorem saveLawyer_entity_type (l : Lawyer) :
    (saveLawyer l).entity_type =
      if l.entity_type = "unknown" then l.detect_entity_type
      else l.entity_type := rfl

theorem getAllEmailsAux_map_email (ces : List CompanyEmail) (seen : List String) :
    (getAllEmailsAux ces seen).map (fun e => e.email) =
      specFirstDedupAux (ces.map (fun c => c.email)) seen := by
  induction ces generalizing seen with
  | nil => rfl
  | cons c rest ih =>
    simp only [getAllEmailsAux, List.map_cons, specFirstDedupAux]
    split
    · exact ih seen
    · simp [companyEntry, ih]

theorem specFirstDedupAux_not_mem_seen (xs seen : List String) :
    ∀ y ∈ specFirstDedupAux xs seen, y ∉ seen := by
  induction xs generalizing seen with
  | nil => simp [specFirstDedupAux]
  | cons x rest ih =>
    intro y hy
    simp only [specFirstDedupAux] at hy
    split at hy
    · exact ih seen y hy
    · rcases List.mem_cons.1 hy with h | h
      · subst h
        assumption
      · intro hmem
        exact ih (x :: seen) y h (List.mem_cons_of_mem x hmem)

theorem specFirstDedupAux_nodup (xs seen : List String) :
    (specFirstDedupAux xs seen).Nodup := by
  induction xs generalizing seen with
  | nil => simp [specFirstDedupAux]
  | cons x rest ih =>
    simp only [specFirstDedupAux]
    split
    · exact ih seen
    · refine List.nodup_cons.2 ⟨fun hmem => ?_, ih (x :: seen)⟩
      exact specFirstDedupAux_not_mem_seen rest (x :: seen) x hmem
        (List.mem_cons_self x seen)

/-- C4: for every entity, whatever the primary email and the contents of
the `company_emails` container, `get_all_emails` has pairwise distinct
email values, and its email sequence is exactly the first-occurrence
deduplication of: primary email first (when present), then the container
entries in container order. -/
theorem get_all_emails_dedup_and_order (l : Lawyer) :
    ((getAllEmails l).map (fun e => e.email)).Nodup ∧
    (getAllEmails l).map (fun e => e.email) =
      specFirstDedup ((if l.email ≠ "" then [l.email] else []) ++
        l.company_emails.map (fun c => c.email)) := by
  by_cases h : l.email = ""
  · simp only [getAllEmails, h, ne_eq, not_true_eq_false, if_false,
      List.nil_append, specFirstDedup]
    rw [getAllEmailsAux_map_email]
    exact ⟨specFirstDedupAux_nodup _ _, rfl⟩
  · simp only [getAllEmails, h, ne_eq, not_false_eq_true, if_true,
      List.map_cons, List.singleton_append, specFirstDedup, specFirstDedupAux,
      List.not_mem_nil, if_false]
    rw [getAllEmailsAux_map_email]
    refine ⟨List.nodup_cons.2 ⟨fun hmem => ?_, specFirstDedupAux_nodup _ _⟩,
      by simp [primaryEntry]⟩
    exact specFirstDedupAux_not_mem_seen _ _ _ hmem (List.mem_cons_self _ _)

/-- C6: entity classification is a pure function of `domain` and
`company_name` (rows agreeing on those two fields classify identically),
its value is always one of `law_firm`, `individual_attorney`, `unknown`,
and re-running the save-time derivation on a row whose `entity_type`
already equals the derived value never changes it. -/
theorem detect_entity_type_pure_total_stable :
    (∀ l l2 : Lawyer, l.domain = l2.domain → l.company_name = l2.company_name →
      l.detect_entity_type = l2.detect_entity_type) ∧
    (∀ l : Lawyer, l.detect_entity_type = "law_firm" ∨
      l.detect_entity_type = "individual_attorney" ∨
      l.detect_entity_type = "unknown") ∧
    (∀ l : Lawyer, l.entity_type = l.detect_entity_type →
      (saveLawyer l).entity_type = l.entity_type) := by
  refine ⟨fun l l2 h1 h2 => ?_, fun l => ?_, fun l h => ?_⟩
  · unfold Lawyer.detect_entity_type
    rw [h1, h2]
  · unfold Lawyer.detect_entity_type detectET
    repeat' split
    all_goals simp
  · rw [saveLawyer_entity_type]
    split
    · exact h.symm
    · rfl

/-- Completeness score as the spec words it: 70 times the filled share of
the six core fields plus 30 times the filled share of the six secondary
fields, capped at 100. -/
def specCompletenessScore (l : Lawyer) : ℚ :=
  min (70 * (([l.company_name, l.attorney_name, l.phone, l.address,
               l.website, l.email].countP (fun f => f != "") : ℚ) / 6) +
       30 * (([l.practice_areas, l.attorney_details, l.law_school,
               l.bar_admissions, l.licensed_since,
               l.education].countP (fun f => f != "") : ℚ) / 6)) 100

/-- Quality score as the spec words it: four independent 25-point checks
(regex-valid US phone, regex-valid email, address longer than 10
characters, company name longer than 3 characters), no partial credit. -/
def specQualityScore (l : Lawyer) : ℚ :=
  (if phoneRegexMatch l.phone then 25 else 0) +
  (if emailRegexMatch l.email then 25 else 0) +
  (if l.address.length > 10 then 25 else 0) +
  (if l.company_name.length > 3 then 25 else 0)

theorem phoneRegexMatch_empty : phoneRegexMatch "" = false := by decide

theorem emailRegexMatch_empty : emailRegexMatch "" = false := by decide

/-- C7: the completeness score is the 70/30-weighted filled-field share
capped at 100, the quality score is the sum of the four 25-point checks,
and both always lie between 0 and 100. -/
theorem scores_formula_and_bounds (l : Lawyer) :
    l.calculate_completeness_score = specCompletenessScore l ∧
    l.calculate_quality_score = specQualityScore l ∧
    0 ≤ l.calculate_completeness_score ∧ l.calculate_completeness_score ≤ 100 ∧
    0 ≤ l.calculate_quality_score ∧ l.calculate_quality_score ≤ 100 := by
  have hcomp : l.calculate_completeness_score = specCompletenessScore l := by
    unfold Lawyer.calculate_completeness_score specCompletenessScore
    simp only [List.length_cons, List.length_nil]
    norm_num
    congr 1
    ring
  have hqual : l.calculate_quality_score = specQualityScore l := by
    unfold Lawyer.calculate_quality_score specQualityScore
    congr 1
    · congr 1
      · congr 1
        · by_cases h : l.phone = ""
          · simp [h, phoneRegexMatch_empty]
          · simp [h]
        · by_cases h : l.email = ""
          · simp [h, emailRegexMatch_empty]
          · simp [h]
      · by_cases h : l.address = ""
        · simp [h]
        · simp [h]
    · by_cases h : l.company_name = ""
      · simp [h]
      · simp [h]
  have hq0 : ∀ p : Prop, ∀ inst : Decidable p,
      0 ≤ (if p then (25 : ℚ) else 0) ∧ (if p then (25 : ℚ) else 0) ≤ 25 := by
    intro p inst
    split <;> norm_num
  refine ⟨hcomp, hqual, ?_, ?_, ?_, ?_⟩
  · rw [hcomp]
    unfold specCompletenessScore
    refine le_min (by positivity) (by norm_num)
  · rw [hcomp]
    unfold specCompletenessScore
    exact min_le_right _ _
  · rw [hqual]
    unfold specQualityScore
    have h1 := hq0 (phoneRegexMatch l.phone = true) (by infer_instance)
    have h2 := hq0 (emailRegexMatch l.email = true) (by infer_instance)
    have h3 := hq0 (l.address.length > 10) (by infer_instance)
    have h4 := hq0 (l.company_name.length > 3) (by infer_instance)
    linarith [h1.1, h2.1, h3.1, h4.1]
  · rw [hqual]
    unfold specQualityScore
    have h1 := hq0 (phoneRegexMatch l.phone = true) (by infer_instance)
    have h2 := hq0 (emailRegexMatch l.email = true) (by infer_instance)
    have h3 := hq0 (l.address.length > 10) (by infer_instance)
    have h4 := hq0 (l.company_name.length > 3) (by infer_instance)
    linarith [h1.2, h2.2, h3.2, h4.2]

theorem any_email_eq_iff_mem (ces : List CompanyEmail) (email : String) :
    ces.any (fun existing => existing.email = email) = true ↔
      email ∈ ces.map (fun c => c.email) := by
  simp [List.any_eq_true, List.mem_map]

/-- C8: adding an address already present in `company_emails` is a no-op
returning `False` (modelled as `none`), while adding a new address
appends exactly one structured, timestamped entry with the given fields
and returns it. -/
theorem add_company_email_spec (l : Lawyer)
    (email email_type contact_name contact_title source : String)
    (confidence_score : ℚ) (now : String) :
    (email ∈ l.company_emails.map (fun c => c.email) →
      addCompanyEmail l email email_type contact_name contact_title source
        confidence_score now = (l, none)) ∧
    (email ∉ l.company_emails.map (fun c => c.email) →
      (addCompanyEmail l email email_type contact_name contact_title source
          confidence_score now).1.company_emails =
        l.company_emails ++
          [{ email := email, type := email_type, contact_name := contact_name,
             contact_title := contact_title, source := source,
             confidence := confidence_score, verified := false,
             created_at := now }] ∧
      (addCompanyEmail l email email_type contact_name contact_title source
          confidence_score now).2 =
        some { email := email, type := email_type, contact_name := contact_name,
               contact_title := contact_title, source := source,
               confidence := confidence_score, verified := false,
               created_at := now }) := by
  constructor
  · intro hmem
    have hany : l.company_emails.any (fun existing => existing.email = email) =
        true := (any_email_eq_iff_mem _ _).2 hmem
    simp [addCompanyEmail, hany]
  · intro hmem
    have hany : ¬ (l.company_emails.any
        (fun existing => existing.email = email) = true) := by
      rw [any_email_eq_iff_mem]
      exact hmem
    unfold addCompanyEmail
    rw [if_neg hany]
    exact ⟨saveLawyer_company_emails _, rfl⟩

/-- Witness for C8 at concrete inputs: the row gains exactly the one new
entry, and re-adding the same address is the identity returning `none`. -/
theorem add_company_email_spec_witness :
    (addCompanyEmail emptyLawyer "info@firm.com" "general" "" "" "rocketreach"
        0 "2024-01-01T00:00:00").1.company_emails =
      [{ email := "info@firm.com", type := "general", contact_name := "",
         contact_title := "", source := "rocketreach", confidence := 0,
         verified := false, created_at := "2024-01-01T00:00:00" }] ∧
    addCompanyEmail
        (addCompanyEmail emptyLawyer "info@firm.com" "general" "" ""
          "rocketreach" 0 "2024-01-01T00:00:00").1
        "info@firm.com" "professional" "Jane Roe" "Partner" "rocketreach"
        (1 : ℚ) "2024-02-02T00:00:00" =
      ((addCompanyEmail emptyLawyer "info@firm.com" "general" "" ""
          "rocketreach" 0 "2024-01-01T00:00:00").1, none) := by
  constructor
  · exact ((add_company_email_spec emptyLawyer "info@firm.com" "general" "" ""
      "rocketreach" 0 "2024-01-01T00:00:00").2 (by decide)).1
  · exact (add_company_email_spec
      (addCompanyEmail emptyLawyer "info@firm.com" "general" "" "" "rocketreach"
        0 "2024-01-01T00:00:00").1
      "info@firm.com" "professional" "Jane Roe" "Partner" "rocketreach" 1
      "2024-02-02T00:00:00").1 (by decide)

/-- C9: a provider 404 does not raise (unlike 400, 401, 403 and 500), a
404 lookup response is processed into the terminal body
`{"emails": [], "status": "not_found"}`, and the lookup record updated
from the resulting not-found outcome carries `status = not_found` and no
email, so nothing propagates to the task queue. -/
theorem provider_404_is_terminal_not_found :
    (∀ text, handleApiError 404 text = .ok ()) ∧
    (∀ text, ∃ msg, handleApiError 400 text = .error msg) ∧
    (∀ text, ∃ msg, handleApiError 401 text = .error msg) ∧
    (∀ text, ∃ msg, handleApiError 403 text = .error msg) ∧
    (∀ text, ∃ msg, handleApiError 500 text = .error msg) ∧
    (∀ text json, processLookupResponse 404 text json =
      .ok { emails := [], status := "not_found" }) ∧
    (∀ id, (updateLookupWithResult (newLookupRecord id) buildNotFoundResult).status
        = "not_found" ∧
      (updateLookupWithResult (newLookupRecord id) buildNotFoundResult).email
        = none) := by
  refine ⟨fun text => by simp [handleApiError],
    fun text => ⟨"Bad Request: " ++ text, by simp [handleApiError]⟩,
    fun text => ⟨"Unauthorized: Invalid API Key", by simp [handleApiError]⟩,
    fun text => ⟨"Forbidden: API Key lacks permission",
      by simp [handleApiError]⟩,
    fun text => ⟨"Internal Server Error: " ++ text,
      by simp [handleApiError]⟩,
    fun text json => by simp [processLookupResponse, handleApiError],
    fun id => by simp [updateLookupWithResult, buildNotFoundResult,
      newLookupRecord]⟩

theorem getAllEmailsAux_types (ces : List CompanyEmail) (seen : List String) :
    ∀ e ∈ getAllEmailsAux ces seen, ∃ c ∈ ces, e.type = c.type := by
  induction ces generalizing seen with
  | nil => simp [getAllEmailsAux]
  | cons c rest ih =>
    intro e he
    simp only [getAllEmailsAux] at he
    split at he
    · obtain ⟨c2, hc2, ht⟩ := ih seen e he
      exact ⟨c2, List.mem_cons_of_mem c hc2, ht⟩
    · rcases List.mem_cons.1 he with h | h
      · exact ⟨c, List.mem_cons_self c rest, by simp [h, companyEntry]⟩
      · obtain ⟨c2, hc2, ht⟩ := ih (c.email :: seen) e h
        exact ⟨c2, List.mem_cons_of_mem c hc2, ht⟩

theorem bestByPriority_eq_none (ps : List String) (es : List EmailEntry)
    (h : ∀ e ∈ es, e.type ∉ ps) : bestByPriority ps es = none := by
  induction ps with
  | nil => rfl
  | cons p rest ih =>
    have hfind : es.find? (fun e => e.type = p) = none := by
      rw [List.find?_eq_none]
      intro e he
      simp only [decide_eq_true_eq]
      intro hp
      exact h e he (hp ▸ List.mem_cons_self p rest)
    simp only [bestByPriority, hfind]
    exact ih (fun e he hp => h e he (List.mem_cons_of_mem p hp))

/-- C10: an entity with no primary email whose `company_emails` entries
all carry a type outside the priority list (for instance the default
type `general` used by `add_company_email`) gets `None` from
`get_best_contact_email` although `get_all_emails` is non-empty, so
`None` is not limited to the no-emails case. -/
theorem get_best_contact_email_none_despite_emails (l : Lawyer)
    (h1 : l.email = "")
    (h2 : ∀ c ∈ l.company_emails,
      c.type ∉ (["primary", "professional", "personal", "previous"] :
        List String)) :
    getBestContactEmail l = none ∧
    (l.company_emails ≠ [] → getAllEmails l ≠ []) := by
  have hall : getAllEmails l = getAllEmailsAux l.company_emails [] := by
    simp [getAllEmails, h1]
  constructor
  · unfold getBestContactEmail
    rw [hall]
    refine bestByPriority_eq_none _ _ (fun e he hp => ?_)
    obtain ⟨c, hc, ht⟩ := getAllEmailsAux_types l.company_emails [] e he
    exact h2 c hc (ht ▸ hp)
  · intro hne
    rw [hall]
    match hce : l.company_emails with
    | [] => exact absurd hce hne
    | c :: rest =>
      simp [getAllEmailsAux]

/-- Witness for C10: a lawyer with just a `general`-typed address added by
`add_company_email` has a non-empty `get_all_emails` but no best contact. -/
theorem get_best_contact_email_none_witness :
    getBestContactEmail
        (addCompanyEmail emptyLawyer "jane@firm.com" "general" "" ""
          "rocketreach" 0 "2024-01-01T00:00:00").1 = none ∧
    getAllEmails
        (addCompanyEmail emptyLawyer "jane@firm.com" "general" "" ""
          "rocketreach" 0 "2024-01-01T00:00:00").1 ≠ [] := by
  have h := get_best_contact_email_none_despite_emails
    (addCompanyEmail emptyLawyer "jane@firm.com" "general" "" "" "rocketreach"
      0 "2024-01-01T00:00:00").1 (by decide) (by decide)
  exact ⟨h.1, h.2 (by decide)⟩

/-- C3 (amended): the session-level code does not recompute counters
from the child discovery units.  `update_crawl_progress` recomputes only
`progress_percentage`, and from the stored `crawled_urls`/`total_urls`
counters; `crawl_session_task` leaves `crawled_urls` untouched, derives
`success_count`/`error_count` from the outcomes of its own fresh crawl
of every child URL (not from the stored unit statuses), and marks the
session `DONE`. -/
theorem crawl_session_aggregation_behavior (s : SessionState)
    (units : List DiscoveryUnit) (outcomes : List (Except String Nat)) :
    (crawlSessionTask s units outcomes).1.crawled_urls = s.crawled_urls ∧
    (crawlSessionTask s units outcomes).1.total_urls = s.total_urls ∧
    (crawlSessionTask s units outcomes).1.success_count =
      ((units.zip outcomes).filter (fun p => crawlOk p.2)).length ∧
    (crawlSessionTask s units outcomes).1.error_count =
      ((units.zip outcomes).filter (fun p => !crawlOk p.2)).length ∧
    (crawlSessionTask s units outcomes).1.status = "DONE" ∧
    (crawlSessionTask s units outcomes).1.progress_percentage =
      (if 0 < s.total_urls then (s.crawled_urls : ℚ) / (s.total_urls : ℚ) * 100
       else 0) :=
  ⟨rfl, rfl, rfl, rfl, rfl, rfl⟩

/-- A discovery unit with the given stored status, for the C3 scenario. -/
def c3Unit (st : String) : DiscoveryUnit :=
  { url := "https://www.lawinfo.com/personal-injury/arizona/chandler/",
    domain := "lawinfo", state := "arizona", city := "chandler",
    practice_area := "personal-injury", status := st, lawyers_found := 1,
    error_message := "" }

/-- Ten discovery units, seven `COMPLETED` and three `FAILED`. -/
def c3Units : List DiscoveryUnit :=
  List.replicate 7 (c3Unit "COMPLETED") ++ List.replicate 3 (c3Unit "FAILED")

/-- The parent job of the C3 scenario: ten child URLs, stored
`crawled_urls` still at its default 0 (no code path in the task module
ever increments it). -/
def c3Session : SessionState :=
  { total_urls := 10, crawled_urls := 0, success_count := 0, error_count := 0,
    progress_percentage := 0, status := "CRAWLING" }

/-- Oracle for the fresh crawls `crawl_session_task` performs: all ten
succeed. -/
def c3Outcomes : List (Except String Nat) :=
  List.replicate 10 (Except.ok 1)

/-- The session row after `crawl_session_task`. -/
def c3Result : SessionState :=
  (crawlSessionTask c3Session c3Units c3Outcomes).1

/-- C3 is false on the code at this concrete input: with ten child units
(seven `COMPLETED`, three `FAILED`) the job does end `DONE`, but
`crawled_urls` stays 0 (not 10), `error_count` ignores the stored unit
statuses (0 here, not 3), and `progress_percentage` is recomputed from
the stored counters as 0, not 100. -/
theorem crawl_session_aggregation_counterexample :
    (c3Units.filter (fun u => u.status = "COMPLETED")).length = 7 ∧
    (c3Units.filter (fun u => u.status = "FAILED")).length = 3 ∧
    c3Result.status = "DONE" ∧
    ¬ (c3Result.crawled_urls = 10 ∧ c3Result.error_count = 3 ∧
       c3Result.progress_percentage = 100) ∧
    c3Result.crawled_urls = 0 ∧ c3Result.error_count = 0 ∧
    c3Result.progress_percentage = 0 := by
  have hprog : c3Result.progress_percentage = 0 := by
    show (if 0 < c3Session.total_urls then
      (c3Session.crawled_urls : ℚ) / (c3Session.total_urls : ℚ) * 100
      else 0) = 0
    norm_num [c3Session]
  refine ⟨by decide, by decide, rfl, ?_, rfl, by decide, hprog⟩
  intro h
  exact absurd h.1 (by decide)

/-- C5 (amended): when the Stage-1 fetch fails, the task falls back to
creating the 1 to 3 randomly drawn sample rows and the discovery unit
still transitions to `COMPLETED`, not `FAILED`; the rows are
recognizable only by their generated sample values (company name
`Sample Law Firm N`, website / email `samplelawN`), there being no
dedicated synthetic marker. -/
theorem stage1_fetch_failure_fallback (d : DiscoveryUnit) (msg : String)
    (n : Nat) (rand : Nat → SampleRand) (h1 : 1 ≤ n) (h3 : n ≤ 3) :
    (crawlBasicLawyerInfoTask d (.error msg) n rand).1.status = "COMPLETED" ∧
    (crawlBasicLawyerInfoTask d (.error msg) n rand).1.status ≠ "FAILED" ∧
    1 ≤ (crawlBasicLawyerInfoTask d (.error msg) n rand).2.length ∧
    (crawlBasicLawyerInfoTask d (.error msg) n rand).2.length ≤ 3 ∧
    (crawlBasicLawyerInfoTask d (.error msg) n rand).1.lawyers_found = n ∧
    ∀ row ∈ (crawlBasicLawyerInfoTask d (.error msg) n rand).2,
      ∃ i, i < n ∧
        row = sampleLawyerData { d with status := "RUNNING" } i (rand i) ∧
        row.company_name = "Sample Law Firm " ++ toString (i + 1) := by
  have hlen : (crawlBasicLawyerInfoTask d (.error msg) n rand).2.length = n := by
    simp [crawlBasicLawyerInfoTask, createSampleLawyersForUrl]
  refine ⟨rfl, (by decide : ("COMPLETED" : String) ≠ "FAILED"), ?_, ?_, rfl, ?_⟩
  · rw [hlen]
    exact h1
  · rw [hlen]
    exact h3
  · intro row hrow
    simp only [crawlBasicLawyerInfoTask, createSampleLawyersForUrl,
      List.mem_map, List.mem_range] at hrow
    obtain ⟨i, hi, hrow⟩ := hrow
    refine ⟨i, hi, hrow.symm, ?_⟩
    rw [← hrow]
    rfl

/-- The discovery unit of the C5 scenario. -/
def c5Unit : DiscoveryUnit :=
  { url := "https://www.superlawyers.com/texas/austin/",
    domain := "superlawyers", state := "texas", city := "austin",
    practice_area := "personal-injury", status := "PENDING",
    lawyers_found := 0, error_message := "" }

/-- Concrete values for the random draws of the C5 scenario. -/
def c5Rand : Nat → SampleRand :=
  fun _ => { area := 555, mid := 123, last := 4567, street := 42 }

/-- The string fields of one created sample row, in schema order. -/
def sampleLawyerFields (r : SampleLawyer) : List String :=
  [r.source_url, r.domain, r.practice_area, r.state, r.city, r.company_name,
   r.phone, r.address, r.practice_areas, r.attorney_details, r.website,
   r.email]

/-- Witness for C5 (amended) at a concrete failing fetch: the unit
completes and at most three rows are created. -/
theorem stage1_fetch_failure_fallback_witness :
    (crawlBasicLawyerInfoTask c5Unit (.error "connection timeout") 2
      c5Rand).1.status = "COMPLETED" ∧
    (crawlBasicLawyerInfoTask c5Unit (.error "connection timeout") 2
      c5Rand).2.length ≤ 3 :=
  ⟨(stage1_fetch_failure_fallback c5Unit "connection timeout" 2 c5Rand
      (by decide) (by decide)).1,
   (stage1_fetch_failure_fallback c5Unit "connection timeout" 2 c5Rand
      (by decide) (by decide)).2.2.2.1⟩

/-- C5 is false as stated at this concrete input: the fallback rows
created for a failed fetch carry no explicit synthetic marker — no field
of any created row even mentions the word synthetic.  The rows exist,
but nothing in the stored data flags them as fabricated. -/
theorem stage1_synthetic_marker_counterexample :
    (crawlBasicLawyerInfoTask c5Unit (.error "network error") 2 c5Rand).2
      ≠ [] ∧
    ((crawlBasicLawyerInfoTask c5Unit (.error "network error") 2
        c5Rand).2.all
      (fun row => (sampleLawyerFields row).all
        (fun f => !(strContains "synthetic" (pyLower f))))) = true := by
  constructor
  · decide
  · decide

/-!
Lemmas about the sync helpers, leading to claim C2.
-/

theorem saveLawyer_entity_type_of_ne (l : Lawyer)
    (h : l.entity_type ≠ "unknown") :
    (saveLawyer l).entity_type = l.entity_type := by
  rw [saveLawyer_entity_type, if_neg h]

theorem addCompanyEmail_fst_email (l : Lawyer) (e t cn ct src : String)
    (conf : ℚ) (now : String) :
    (addCompanyEmail l e t cn ct src conf now).1.email = l.email := by
  unfold addCompanyEmail
  split
  · rfl
  · exact saveLawyer_email _

theorem addCompanyEmail_fst_employee_contacts (l : Lawyer)
    (e t cn ct src : String) (conf : ℚ) (now : String) :
    (addCompanyEmail l e t cn ct src conf now).1.employee_contacts =
      l.employee_contacts := by
  unfold addCompanyEmail
  split
  · rfl
  · exact saveLawyer_employee_contacts _

theorem addCompanyEmail_fst_entity_type (l : Lawyer) (e t cn ct src : String)
    (conf : ℚ) (now : String) (h : l.entity_type ≠ "unknown") :
    (addCompanyEmail l e t cn ct src conf now).1.entity_type =
      l.entity_type := by
  unfold addCompanyEmail
  split
  · rfl
  · exact saveLawyer_entity_type_of_ne _ h

theorem addCompanyEmail_emails_mono (l : Lawyer) (e t cn ct src : String)
    (conf : ℚ) (now : String) (x : String)
    (h : x ∈ l.company_emails.map (fun c => c.email)) :
    x ∈ (addCompanyEmail l e t cn ct src conf now).1.company_emails.map
      (fun c => c.email) := by
  unfold addCompanyEmail
  split
  · exact h
  · show x ∈ ((l.company_emails ++ ([_] : List CompanyEmail)).map
      (fun c => c.email))
    rw [List.map_append]
    exact List.mem_append_left _ h

theorem addCompanyEmail_mem_self (l : Lawyer) (e t cn ct src : String)
    (conf : ℚ) (now : String) :
    e ∈ (addCompanyEmail l e t cn ct src conf now).1.company_emails.map
      (fun c => c.email) := by
  unfold addCompanyEmail
  split
  · next hc => exact (any_email_eq_iff_mem _ _).1 hc
  · show e ∈ ((l.company_emails ++ ([_] : List CompanyEmail)).map
      (fun c => c.email))
    rw [List.map_append]
    exact List.mem_append_right _ (by simp)

theorem addActualEmail_email (emp : EmployeeEmail) (now : String) (l : Lawyer)
    (a : ActualEmail) : (addActualEmail emp now l a).email = l.email := by
  unfold addActualEmail
  split
  · exact addCompanyEmail_fst_email _ _ _ _ _ _ _ _
  · rfl

theorem addActualEmail_employee_contacts (emp : EmployeeEmail) (now : String)
    (l : Lawyer) (a : ActualEmail) :
    (addActualEmail emp now l a).employee_contacts = l.employee_contacts := by
  unfold addActualEmail
  split
  · exact addCompanyEmail_fst_employee_contacts _ _ _ _ _ _ _ _
  · rfl

theorem addActualEmail_entity_type (emp : EmployeeEmail) (now : String)
    (l : Lawyer) (a : ActualEmail) (h : l.entity_type ≠ "unknown") :
    (addActualEmail emp now l a).entity_type = l.entity_type := by
  unfold addActualEmail
  split
  · exact addCompanyEmail_fst_entity_type _ _ _ _ _ _ _ _ h
  · rfl

theorem addActualEmail_emails_mono (emp : EmployeeEmail) (now : String)
    (l : Lawyer) (a : ActualEmail) (x : String)
    (h : x ∈ l.company_emails.map (fun c => c.email)) :
    x ∈ (addActualEmail emp now l a).company_emails.map (fun c => c.email) := by
  unfold addActualEmail
  split
  · exact addCompanyEmail_emails_mono _ _ _ _ _ _ _ _ _ h
  · exact h

theorem addActualEmail_mem_self (emp : EmployeeEmail) (now : String)
    (l : Lawyer) (a : ActualEmail) (ha : a.email ≠ "") :
    a.email ∈ (addActualEmail emp now l a).company_emails.map
      (fun c => c.email) := by
  unfold addActualEmail
  rw [if_pos ha]
  exact addCompanyEmail_mem_self _ _ _ _ _ _ _ _

theorem foldl_addActual_email (emp : EmployeeEmail) (now : String)
    (as : List ActualEmail) : ∀ l : Lawyer,
    (as.foldl (addActualEmail emp now) l).email = l.email := by
  induction as with
  | nil => intro l; rfl
  | cons a rest ih =>
    intro l
    rw [List.foldl_cons, ih, addActualEmail_email]

theorem foldl_addActual_employee_contacts (emp : EmployeeEmail) (now : String)
    (as : List ActualEmail) : ∀ l : Lawyer,
    (as.foldl (addActualEmail emp now) l).employee_contacts =
      l.employee_contacts := by
  induction as with
  | nil => intro l; rfl
  | cons a rest ih =>
    intro l
    rw [List.foldl_cons, ih, addActualEmail_employee_contacts]

theorem foldl_addActual_entity_type (emp : EmployeeEmail) (now : String)
    (as : List ActualEmail) : ∀ l : Lawyer, l.entity_type ≠ "unknown" →
    (as.foldl (addActualEmail emp now) l).entity_type = l.entity_type := by
  induction as with
  | nil => intro l _; rfl
  | cons a rest ih =>
    intro l h
    rw [List.foldl_cons, ih _ (by rw [addActualEmail_entity_type _ _ _ _ h]; exact h),
      addActualEmail_entity_type _ _ _ _ h]

theorem foldl_addActual_emails_mono (emp : EmployeeEmail) (now : String)
    (as : List ActualEmail) : ∀ (l : Lawyer) (x : String),
    x ∈ l.company_emails.map (fun c => c.email) →
    x ∈ (as.foldl (addActualEmail emp now) l).company_emails.map
      (fun c => c.email) := by
  induction as with
  | nil => intro l x h; exact h
  | cons a rest ih =>
    intro l x h
    rw [List.foldl_cons]
    exact ih _ _ (addActualEmail_emails_mono _ _ _ _ _ h)

theorem foldl_addActual_adds (emp : EmployeeEmail) (now : String)
    (as : List ActualEmail) : ∀ (l : Lawyer) (a : ActualEmail), a ∈ as →
    a.email ≠ "" →
    a.email ∈ (as.foldl (addActualEmail emp now) l).company_emails.map
      (fun c => c.email) := by
  induction as with
  | nil => intro l a ha _; exact absurd ha (List.not_mem_nil a)
  | cons b rest ih =>
    intro l a ha hne
    rw [List.foldl_cons]
    rcases List.mem_cons.1 ha with h | h
    · subst h
      exact foldl_addActual_emails_mono _ _ _ _ _
        (addActualEmail_mem_self _ _ _ _ hne)
    · exact ih _ _ h hne

/-- A contact block for employee `(name, title)` is present in the
container. -/
def hasContactKey (name title : String) (cs : List EmployeeContact) : Prop :=
  ∃ c ∈ cs, c.name = name ∧ c.title = title

theorem updateOrAppendContact_self (cs : List EmployeeContact)
    (n t : String) (ec : EmployeeContact) (hn : ec.name = n)
    (ht : ec.title = t) :
    hasContactKey n t (updateOrAppendContact cs n t ec) := by
  induction cs with
  | nil => exact ⟨ec, by simp [updateOrAppendContact], hn, ht⟩
  | cons c rest ih =>
    unfold updateOrAppendContact
    split
    · exact ⟨ec, List.mem_cons_self _ _, hn, ht⟩
    · obtain ⟨c2, hc2, hk⟩ := ih
      exact ⟨c2, List.mem_cons_of_mem _ hc2, hk⟩

theorem updateOrAppendContact_preserve (cs : List EmployeeContact)
    (n t n2 t2 : String) (ec : EmployeeContact) (hn : ec.name = n2)
    (ht : ec.title = t2) (h : hasContactKey n t cs) :
    hasContactKey n t (updateOrAppendContact cs n2 t2 ec) := by
  induction cs with
  | nil =>
    obtain ⟨c, hc, _⟩ := h
    exact absurd hc (List.not_mem_nil c)
  | cons c rest ih =>
    obtain ⟨c2, hc2, hk⟩ := h
    unfold updateOrAppendContact
    split
    · next hcond =>
      rcases List.mem_cons.1 hc2 with heq | hmem
      · subst heq
        exact ⟨ec, List.mem_cons_self _ _, by
          rw [hn, ← hcond.1, hk.1], by rw [ht, ← hcond.2, hk.2]⟩
      · exact ⟨c2, List.mem_cons_of_mem _ hmem, hk⟩
    · rcases List.mem_cons.1 hc2 with heq | hmem
      · subst heq
        exact ⟨c2, List.mem_cons_self _ _, hk⟩
      · obtain ⟨c3, hc3, hk3⟩ := ih ⟨c2, hmem, hk⟩
        exact ⟨c3, List.mem_cons_of_mem _ hc3, hk3⟩

theorem updateOrAppendContact_length (cs : List EmployeeContact)
    (n t : String) (ec : EmployeeContact) (h : hasContactKey n t cs) :
    (updateOrAppendContact cs n t ec).length = cs.length := by
  induction cs with
  | nil =>
    obtain ⟨c, hc, _⟩ := h
    exact absurd hc (List.not_mem_nil c)
  | cons c rest ih =>
    obtain ⟨c2, hc2, hk⟩ := h
    unfold updateOrAppendContact
    split
    · simp
    · next hcond =>
      rcases List.mem_cons.1 hc2 with heq | hmem
      · subst heq
        exact absurd ⟨hk.1, hk.2⟩ hcond
      · simp [ih ⟨c2, hmem, hk⟩]

/-- The container produced by one law-firm employee iteration. -/
theorem syncLawFirmStep_contacts (now : String) (l : Lawyer)
    (emp : EmployeeEmail) :
    (syncLawFirmStep now l emp).employee_contacts =
      if emp.actual_emails.isEmpty then l.employee_contacts
      else updateOrAppendContact l.employee_contacts emp.name emp.title
        (mkEmployeeContact emp) := by
  unfold syncLawFirmStep
  split
  · exact foldl_addActual_employee_contacts _ _ _ _
  · show (updateOrAppendContact
      (emp.actual_emails.foldl (addActualEmail emp now) l).employee_contacts
      emp.name emp.title (mkEmployeeContact emp)) =
      updateOrAppendContact l.employee_contacts emp.name emp.title
        (mkEmployeeContact emp)
    rw [foldl_addActual_employee_contacts]

theorem syncLawFirmStep_email (now : String) (l : Lawyer)
    (emp : EmployeeEmail) : (syncLawFirmStep now l emp).email = l.email := by
  unfold syncLawFirmStep
  split
  · exact foldl_addActual_email _ _ _ _
  · exact foldl_addActual_email _ _ _ _

theorem syncLawFirmStep_entity_type (now : String) (l : Lawyer)
    (emp : EmployeeEmail) (h : l.entity_type ≠ "unknown") :
    (syncLawFirmStep now l emp).entity_type = l.entity_type := by
  unfold syncLawFirmStep
  split
  · exact foldl_addActual_entity_type _ _ _ _ h
  · exact foldl_addActual_entity_type _ _ _ _ h

theorem syncLawFirmStep_key_preserve (now : String) (l : Lawyer)
    (emp : EmployeeEmail) (n t : String)
    (h : hasContactKey n t l.employee_contacts) :
    hasContactKey n t (syncLawFirmStep now l emp).employee_contacts := by
  rw [syncLawFirmStep_contacts]
  split
  · exact h
  · exact updateOrAppendContact_preserve _ _ _ _ _ _ rfl rfl h

theorem syncLawFirmStep_key_self (now : String) (l : Lawyer)
    (emp : EmployeeEmail) (h : ¬ emp.actual_emails.isEmpty) :
    hasContactKey emp.name emp.title
      (syncLawFirmStep now l emp).employee_contacts := by
  rw [syncLawFirmStep_contacts, if_neg h]
  exact updateOrAppendContact_self _ _ _ _ rfl rfl

theorem foldl_firmStep_email (now : String) (emps : List EmployeeEmail) :
    ∀ l : Lawyer, (emps.foldl (syncLawFirmStep now) l).email = l.email := by
  induction emps with
  | nil => intro l; rfl
  | cons e rest ih =>
    intro l
    rw [List.foldl_cons, ih, syncLawFirmStep_email]

theorem foldl_firmStep_entity_type (now : String) (emps : List EmployeeEmail) :
    ∀ l : Lawyer, l.entity_type ≠ "unknown" →
    (emps.foldl (syncLawFirmStep now) l).entity_type = l.entity_type := by
  induction emps with
  | nil => intro l _; rfl
  | cons e rest ih =>
    intro l h
    have hstep := syncLawFirmStep_entity_type now l e h
    rw [List.foldl_cons, ih _ (by rw [hstep]; exact h), hstep]

theorem foldl_firmStep_key_preserve (now : String) (emps : List EmployeeEmail) :
    ∀ (l : Lawyer) (n t : String), hasContactKey n t l.employee_contacts →
    hasContactKey n t (emps.foldl (syncLawFirmStep now) l).employee_contacts := by
  induction emps with
  | nil => intro l n t h; exact h
  | cons e rest ih =>
    intro l n t h
    rw [List.foldl_cons]
    exact ih _ _ _ (syncLawFirmStep_key_preserve _ _ _ _ _ h)

theorem foldl_firmStep_key_all (now : String) (emps : List EmployeeEmail) :
    ∀ (l : Lawyer) (emp : EmployeeEmail), emp ∈ emps →
    emp.actual_emails ≠ [] →
    hasContactKey emp.name emp.title
      (emps.foldl (syncLawFirmStep now) l).employee_contacts := by
  induction emps with
  | nil => intro l emp h _; exact absurd h (List.not_mem_nil emp)
  | cons e rest ih =>
    intro l emp hmem hne
    rw [List.foldl_cons]
    rcases List.mem_cons.1 hmem with heq | hmem2
    · subst heq
      refine foldl_firmStep_key_preserve now rest _ _ _ ?_
      exact syncLawFirmStep_key_self now l emp
        (by simpa [List.isEmpty_iff] using hne)
    · exact ih _ _ hmem2 hne

theorem foldl_firmStep_length_of_keys (now : String)
    (emps : List EmployeeEmail) : ∀ l : Lawyer,
    (∀ emp ∈ emps, emp.actual_emails ≠ [] →
      hasContactKey emp.name emp.title l.employee_contacts) →
    ((emps.foldl (syncLawFirmStep now) l).employee_contacts).length =
      l.employee_contacts.length := by
  induction emps with
  | nil => intro l _; rfl
  | cons e rest ih =>
    intro l h
    rw [List.foldl_cons]
    have hstep : (syncLawFirmStep now l e).employee_contacts.length =
        l.employee_contacts.length := by
      rw [syncLawFirmStep_contacts]
      split
      · rfl
      · next hne =>
        exact updateOrAppendContact_length _ _ _ _
          (h e (List.mem_cons_self _ _) (by simpa [List.isEmpty_iff] using hne))
    rw [ih _ ?_, hstep]
    intro emp hmem hne
    exact syncLawFirmStep_key_preserve _ _ _ _ _
      (h emp (List.mem_cons_of_mem _ hmem) hne)

theorem foldl_empStep_email (now : String) (emps : List EmployeeEmail) :
    ∀ l : Lawyer,
    (emps.foldl (fun acc emp =>
      emp.actual_emails.foldl (addActualEmail emp now) acc) l).email =
      l.email := by
  induction emps with
  | nil => intro l; rfl
  | cons e rest ih =>
    intro l
    rw [List.foldl_cons, ih, foldl_addActual_email]

theorem foldl_empStep_emails_mono (now : String) (emps : List EmployeeEmail) :
    ∀ (l : Lawyer) (x : String), x ∈ l.company_emails.map (fun c => c.email) →
    x ∈ (emps.foldl (fun acc emp =>
      emp.actual_emails.foldl (addActualEmail emp now) acc)
        l).company_emails.map (fun c => c.email) := by
  induction emps with
  | nil => intro l x h; exact h
  | cons e rest ih =>
    intro l x h
    rw [List.foldl_cons]
    exact ih _ _ (foldl_addActual_emails_mono _ _ _ _ _ h)

theorem foldl_empStep_adds (now : String) (emps : List EmployeeEmail) :
    ∀ (l : Lawyer) (emp : EmployeeEmail) (a : ActualEmail), emp ∈ emps →
    a ∈ emp.actual_emails → a.email ≠ "" →
    a.email ∈ (emps.foldl (fun acc emp2 =>
      emp2.actual_emails.foldl (addActualEmail emp2 now) acc)
        l).company_emails.map (fun c => c.email) := by
  induction emps with
  | nil => intro l emp a h _ _; exact absurd h (List.not_mem_nil emp)
  | cons e rest ih =>
    intro l emp a hmem ha hne
    rw [List.foldl_cons]
    rcases List.mem_cons.1 hmem with heq | hmem2
    · subst heq
      exact foldl_empStep_emails_mono _ _ _ _
        (foldl_addActual_adds _ _ _ _ _ ha hne)
    · exact ih _ _ _ hmem2 ha hne

theorem syncLawFirmEmails_email (l : Lawyer) (b : Option String)
    (emps : List EmployeeEmail) (now : String) :
    (syncLawFirmEmails l b emps now).email = l.email := by
  unfold syncLawFirmEmails
  rw [saveLawyer_email, foldl_firmStep_email]

theorem syncLawFirmEmails_entity_type (l : Lawyer) (b : Option String)
    (emps : List EmployeeEmail) (now : String)
    (h : l.entity_type ≠ "unknown") :
    (syncLawFirmEmails l b emps now).entity_type = l.entity_type := by
  unfold syncLawFirmEmails
  have hf := foldl_firmStep_entity_type now emps l h
  rw [saveLawyer_entity_type_of_ne _ (by rw [hf]; exact h), hf]

theorem syncLawFirmEmails_key_all (l : Lawyer) (b : Option String)
    (emps : List EmployeeEmail) (now : String) (emp : EmployeeEmail)
    (hmem : emp ∈ emps) (hne : emp.actual_emails ≠ []) :
    hasContactKey emp.name emp.title
      (syncLawFirmEmails l b emps now).employee_contacts := by
  unfold syncLawFirmEmails
  rw [saveLawyer_employee_contacts]
  exact foldl_firmStep_key_all now emps l emp hmem hne

theorem syncLawFirmEmails_rerun_length (l : Lawyer) (b b2 : Option String)
    (emps : List EmployeeEmail) (now now2 : String) :
    ((syncLawFirmEmails (syncLawFirmEmails l b emps now) b2 emps
        now2).employee_contacts).length =
      ((syncLawFirmEmails l b emps now).employee_contacts).length := by
  conv_lhs => rw [syncLawFirmEmails]
  rw [saveLawyer_employee_contacts]
  exact foldl_firmStep_length_of_keys now2 emps _
    (fun emp hmem hne => syncLawFirmEmails_key_all l b emps now emp hmem hne)

theorem syncIndividualAttorneyEmails_email_set (l : Lawyer) (e : String)
    (emps : List EmployeeEmail) (now : String) (he : e ≠ "")
    (hl : l.email = "") :
    (syncIndividualAttorneyEmails l (some e) emps now).email = e := by
  simp only [syncIndividualAttorneyEmails]
  rw [if_pos ⟨by simp [optTruthy, he], hl⟩, saveLawyer_email,
    foldl_empStep_email]
  rfl

theorem syncIndividualAttorneyEmails_adds (l : Lawyer) (b : Option String)
    (emps : List EmployeeEmail) (now : String) (emp : EmployeeEmail)
    (a : ActualEmail) (hmem : emp ∈ emps) (ha : a ∈ emp.actual_emails)
    (hne : a.email ≠ "") :
    a.email ∈ (syncIndividualAttorneyEmails l b emps
      now).company_emails.map (fun c => c.email) := by
  simp only [syncIndividualAttorneyEmails]
  rw [saveLawyer_company_emails]
  exact foldl_empStep_adds now emps _ emp a hmem ha hne

theorem syncEmailsToLawyer_firm (l : Lawyer) (r : LookupResult) (now : String)
    (h : l.entity_type = "law_firm") :
    syncEmailsToLawyer l r now =
      syncLawFirmEmails l r.email r.employee_emails now := by
  simp [syncEmailsToLawyer, h]

theorem syncEmailsToLawyer_individual (l : Lawyer) (r : LookupResult)
    (now : String) (h : l.entity_type = "individual_attorney") :
    syncEmailsToLawyer l r now =
      syncIndividualAttorneyEmails l r.email r.employee_emails now := by
  simp [syncEmailsToLawyer, h]

/-- C2: routing of `_sync_emails_to_lawyer` by entity type.  For an
organization (`law_firm`) with a non-empty primary email the sync leaves
the primary email unchanged, every discovered employee with at least one
raw email ends up as a `(name, title)`-keyed block in
`employee_contacts`, and re-running the sync with the same contacts
keeps the container length unchanged (entries are updated, not
duplicated).  For an individual (`individual_attorney`) with an empty
primary email the sync sets the primary email to the lookup's best
candidate and every discovered non-empty address lands in the
`company_emails` container. -/
theorem sync_emails_routing_spec :
    (∀ (l : Lawyer) (r : LookupResult) (now now2 : String),
      l.entity_type = "law_firm" → l.email ≠ "" →
      ((syncEmailsToLawyer l r now).email = l.email ∧
       (∀ emp ∈ r.employee_emails, emp.actual_emails ≠ [] →
         hasContactKey emp.name emp.title
           (syncEmailsToLawyer l r now).employee_contacts) ∧
       ((syncEmailsToLawyer (syncEmailsToLawyer l r now) r
           now2).employee_contacts).length =
         ((syncEmailsToLawyer l r now).employee_contacts).length)) ∧
    (∀ (l : Lawyer) (r : LookupResult) (now : String) (e : String),
      l.entity_type = "individual_attorney" → l.email = "" →
      r.email = some e → e ≠ "" →
      ((syncEmailsToLawyer l r now).email = e ∧
       ∀ emp ∈ r.employee_emails, ∀ a ∈ emp.actual_emails, a.email ≠ "" →
         a.email ∈ (syncEmailsToLawyer l r now).company_emails.map
           (fun c => c.email))) := by
  constructor
  · intro l r now now2 htype _
    have hfirm := syncEmailsToLawyer_firm l r now htype
    have hkeep : (syncEmailsToLawyer l r now).entity_type = "law_firm" := by
      rw [hfirm, syncLawFirmEmails_entity_type _ _ _ _ (by rw [htype]; decide),
        htype]
    refine ⟨by rw [hfirm, syncLawFirmEmails_email], ?_, ?_⟩
    · intro emp hmem hne
      rw [hfirm]
      exact syncLawFirmEmails_key_all _ _ _ _ _ hmem hne
    · rw [syncEmailsToLawyer_firm _ r now2 hkeep, hfirm]
      exact syncLawFirmEmails_rerun_length _ _ _ _ _ _
  · intro l r now e htype hempty hbest hne
    have hind := syncEmailsToLawyer_individual l r now htype
    constructor
    · rw [hind, hbest]
      exact syncIndividualAttorneyEmails_email_set _ _ _ _ hne hempty
    · intro emp hmem a ha hane
      rw [hind]
      exact syncIndividualAttorneyEmails_adds _ _ _ _ _ _ hmem ha hane

/-- The concrete law-firm row of the C2 witness scenario. -/
def c2Firm : Lawyer :=
  { emptyLawyer with
    company_name := "Smith & Jones LLP",
    email := "info@smithjones.com",
    entity_type := "law_firm" }

/-- The concrete individual-attorney row of the C2 witness scenario. -/
def c2Individual : Lawyer :=
  { emptyLawyer with
    company_name := "Jane Roe",
    attorney_name := "Jane Roe",
    entity_type := "individual_attorney" }

/-- The one raw provider email object of the C2 witness scenario. -/
def c2Actual : ActualEmail :=
  { email := "jane@smithjones.com", type := "professional", grade := "A",
    smtp_valid := "valid" }

/-- One discovered employee with one SMTP-valid professional address. -/
def c2Employee : EmployeeEmail :=
  { name := "Jane Roe", title := "Partner", company := "Smith & Jones LLP",
    email_domain := "smithjones.com", email_type := "current_company",
    source := "person_lookup", confidence := "high",
    actual_emails := [c2Actual], phone := "", linkedin_url := "" }

/-- The lookup result of the C2 witness scenario. -/
def c2Result : LookupResult :=
  { success := true, status := "found", email := some "jane@smithjones.com",
    confidence_score := 1/2, employee_emails := [c2Employee], error := none }

/-- Witness for C2 at concrete inputs: the firm keeps its primary email
and gains the keyed employee block (also after a second sync), while the
individual gets the best candidate as primary email and the discovered
address in the container. -/
theorem sync_emails_routing_spec_witness :
    (syncEmailsToLawyer c2Firm c2Result "t1").email = "info@smithjones.com" ∧
    hasContactKey "Jane Roe" "Partner"
      (syncEmailsToLawyer c2Firm c2Result "t1").employee_contacts ∧
    ((syncEmailsToLawyer (syncEmailsToLawyer c2Firm c2Result "t1") c2Result
        "t2").employee_contacts).length =
      ((syncEmailsToLawyer c2Firm c2Result "t1").employee_contacts).length ∧
    (syncEmailsToLawyer c2Individual c2Result "t1").email =
      "jane@smithjones.com" ∧
    "jane@smithjones.com" ∈
      (syncEmailsToLawyer c2Individual c2Result "t1").company_emails.map
        (fun c => c.email) := by
  have hmem : c2Employee ∈ c2Result.employee_emails :=
    List.mem_singleton.mpr rfl
  have hane : c2Actual ∈ c2Employee.actual_emails :=
    List.mem_singleton.mpr rfl
  have hnonempty : c2Employee.actual_emails ≠ [] := List.cons_ne_nil _ _
  have hfirm := sync_emails_routing_spec.1 c2Firm c2Result "t1" "t2" (by rfl)
    (by rw [show c2Firm.email = "info@smithjones.com" from rfl]; decide)
  have hind := sync_emails_routing_spec.2 c2Individual c2Result "t1"
    "jane@smithjones.com" (by rfl) (by rfl) (by rfl) (by decide)
  exact ⟨hfirm.1, hfirm.2.1 c2Employee hmem hnonempty, hfirm.2.2, hind.1,
    hind.2 c2Employee hmem c2Actual hane (by decide)⟩

/-- A concrete individual-attorney row for the C6 witness. -/
def c6RowA : Lawyer :=
  { emptyLawyer with
    domain := "superlawyers.com",
    company_name := "Jane Roe",
    entity_type := "individual_attorney" }

/-- The same row with an extra phone number (same domain and name). -/
def c6RowB : Lawyer :=
  { c6RowA with phone := "555-123-4567", entity_type := "unknown" }

/-- Witness for C6 at concrete rows: two rows agreeing on domain and
name classify identically, the classification is one of the three
values, and a save never changes an already derived type. -/
theorem detect_entity_type_witness :
    c6RowA.detect_entity_type = c6RowB.detect_entity_type ∧
    (c6RowA.detect_entity_type = "law_firm" ∨
     c6RowA.detect_entity_type = "individual_attorney" ∨
     c6RowA.detect_entity_type = "unknown") ∧
    (saveLawyer c6RowA).entity_type = "individual_attorney" := by
  refine ⟨detect_entity_type_pure_total_stable.1 c6RowA c6RowB rfl rfl,
    detect_entity_type_pure_total_stable.2.1 c6RowA, ?_⟩
  exact detect_entity_type_pure_total_stable.2.2 c6RowA (by decide)

/-- C1 (amended): with `force_refresh` false, whenever any lookup record
with status `completed` or `found` exists — regardless of its stored
email — `lookup_lawyer_email` returns the most recent such record's
email, confidence, status and id, creates no new record, touches no
lawyer state and issues no external call; and when no such record exists
and the external search produces a `completed`/`found` result, two
successive calls create exactly one record in total, the second call
issuing no external request. -/
theorem lookup_lawyer_email_idempotence (l : Lawyer)
    (records : List RocketReachLookup) (freshId freshId2 : Nat)
    (ext ext2 : LookupResult) (now now2 : String) :
    (∀ r, getExistingLookup records = some r →
      lookupLawyerEmail l records false freshId ext now =
        { records := records, lawyer := l,
          output := buildExistingLookupResult r, external_calls := 0 }) ∧
    (getExistingLookup records = none → ext.success = true →
      (ext.status = "completed" ∨ ext.status = "found") →
      ((lookupLawyerEmail l records false freshId ext now).records.length =
          records.length + 1 ∧
       (lookupLawyerEmail
           (lookupLawyerEmail l records false freshId ext now).lawyer
           (lookupLawyerEmail l records false freshId ext now).records
           false freshId2 ext2 now2).records =
         (lookupLawyerEmail l records false freshId ext now).records ∧
       (lookupLawyerEmail
           (lookupLawyerEmail l records false freshId ext now).lawyer
           (lookupLawyerEmail l records false freshId ext now).records
           false freshId2 ext2 now2).external_calls = 0)) := by
  constructor
  · intro r hr
    simp [lookupLawyerEmail, hr]
  · intro h hs hst
    have hrec : (lookupLawyerEmail l records false freshId ext now).records =
        updateLookupWithResult (newLookupRecord freshId) ext :: records := by
      simp [lookupLawyerEmail, h]
    have hupd : (updateLookupWithResult (newLookupRecord freshId) ext).status =
        ext.status := by
      unfold updateLookupWithResult
      rw [if_pos hs]
    have hfind : getExistingLookup
        (updateLookupWithResult (newLookupRecord freshId) ext :: records) =
        some (updateLookupWithResult (newLookupRecord freshId) ext) := by
      unfold getExistingLookup
      rw [List.find?_cons_of_pos]
      rcases hst with h1 | h1 <;> simp [hupd, h1]
    refine ⟨by rw [hrec]; simp, ?_, ?_⟩
    · rw [hrec]
      simp [lookupLawyerEmail, hfind]
    · rw [hrec]
      simp [lookupLawyerEmail, hfind]

/-- The lawyer row of the C1 scenarios. -/
def c1Lawyer : Lawyer :=
  { emptyLawyer with
    company_name := "Jane Roe",
    attorney_name := "Jane Roe",
    entity_type := "individual_attorney" }

/-- An external result carrying a found email, for the C1 scenarios. -/
def c1Ext : LookupResult :=
  { success := true, status := "found", email := some "jane@roelaw.com",
    confidence_score := 1/2, employee_emails := [], error := none }

/-- An already stored successful lookup row, for the C1 witness. -/
def c1Existing : RocketReachLookup :=
  { id := 5, status := "found", email := some "jane@roelaw.com",
    confidence_score := 1/2, employee_emails := [] }

/-- Witness for C1 (amended) at concrete inputs: a stored `found` row is
returned as is with no external call, and starting from an empty table
two successive calls leave exactly one row. -/
theorem lookup_lawyer_email_idempotence_witness :
    lookupLawyerEmail c1Lawyer [c1Existing] false 7 c1Ext "t" =
      { records := [c1Existing], lawyer := c1Lawyer,
        output := buildExistingLookupResult c1Existing,
        external_calls := 0 } ∧
    (lookupLawyerEmail c1Lawyer [] false 1 c1Ext "t").records.length = 1 ∧
    (lookupLawyerEmail (lookupLawyerEmail c1Lawyer [] false 1 c1Ext "t").lawyer
        (lookupLawyerEmail c1Lawyer [] false 1 c1Ext "t").records false 2
        c1Ext "t2").records =
      (lookupLawyerEmail c1Lawyer [] false 1 c1Ext "t").records ∧
    (lookupLawyerEmail (lookupLawyerEmail c1Lawyer [] false 1 c1Ext "t").lawyer
        (lookupLawyerEmail c1Lawyer [] false 1 c1Ext "t").records false 2
        c1Ext "t2").external_calls = 0 := by
  have hfresh := (lookup_lawyer_email_idempotence c1Lawyer [] 1 2 c1Ext c1Ext
    "t" "t2").2 (by rfl) (by rfl) (Or.inr (by rfl))
  have hexisting := (lookup_lawyer_email_idempotence c1Lawyer [c1Existing] 7 8
    c1Ext c1Ext "t" "t2").1 c1Existing (by rfl)
  exact ⟨hexisting, hfresh.1, hfresh.2.1, hfresh.2.2⟩

/-- The most recent lookup row of the C1 counterexample: `found` but
with an empty email (reachable: a forced refresh whose person lookups
yielded no address still stores status `found`). -/
def c1RecordNew : RocketReachLookup :=
  { id := 2, status := "found", email := none, confidence_score := 0,
    employee_emails := [] }

/-- The older lookup row of the C1 counterexample: `found` with a
non-empty email. -/
def c1RecordOld : RocketReachLookup :=
  { id := 1, status := "found", email := some "jane@roelaw.com",
    confidence_score := 1/2, employee_emails := [] }

/-- C1 is false as stated at this concrete input: a record with status
`found` and a non-empty email exists (the older row), yet the call
returns the email of the most recent `completed`/`found` row — here
`None` — because `_get_existing_lookup` never checks the stored email.
No new record is created, so only the returned-result part of the claim
fails. -/
theorem lookup_lawyer_email_counterexample :
    (c1RecordOld ∈ [c1RecordNew, c1RecordOld] ∧
      c1RecordOld.status = "found" ∧
      c1RecordOld.email = some "jane@roelaw.com") ∧
    (lookupLawyerEmail c1Lawyer [c1RecordNew, c1RecordOld] false 3 c1Ext
      "t").output.email = none ∧
    (lookupLawyerEmail c1Lawyer [c1RecordNew, c1RecordOld] false 3 c1Ext
      "t").output.email ≠ c1RecordOld.email ∧
    (lookupLawyerEmail c1Lawyer [c1RecordNew, c1RecordOld] false 3 c1Ext
      "t").records = [c1RecordNew, c1RecordOld] ∧
    (lookupLawyerEmail c1Lawyer [c1RecordNew, c1RecordOld] false 3 c1Ext
      "t").external_calls = 0 := by
  have hfind : getExistingLookup [c1RecordNew, c1RecordOld] =
      some c1RecordNew := by rfl
  have hcall := (lookup_lawyer_email_idempotence c1Lawyer
    [c1RecordNew, c1RecordOld] 3 4 c1Ext c1Ext "t" "t2").1 c1RecordNew hfind
  refine ⟨⟨by simp, rfl, rfl⟩, ?_, ?_, ?_, ?_⟩
  · rw [hcall]
    rfl
  · rw [hcall]
    decide
  · rw [hcall]
  · rw [hcall]
